import Mathlib

/-!
Shallow embedding of `herd_notify_slack/adapter.py` (class `SlackNotifyAdapter`).

Remote JSON responses are modelled as records of optional fields (a `none`
field is an absent key, mirroring Python's `dict.get`).  The network round
trip performed by each operation is abstracted as an explicit outcome
parameter: write operations receive a `CallOutcome` (the behaviour of
`_api_call`'s transport layer), read operations receive a `ReadOutcome`
(any exception raised inside their `try` block, or a parsed response).
Python exceptions on the write path are modelled by the `Except` monad's
error component; the read path is total, mirroring its blanket
`except Exception: return []`.
-/

/-- Modelled from the spec: `PostResult` lives in the external `herd_core.types`
module (not in this repository); its shape `{message_id, destination, timestamp}`
is given by spec section 3 and by the keyword arguments at the construction
sites in `adapter.py` (the destination field is named `channel` in code). -/
structure PostResult where
  message_id : String
  channel : String
  timestamp : String
deriving Repr, DecidableEq

/-- Modelled from the spec: `ThreadMessage` lives in the external
`herd_core.types` module; its shape `{author, text, timestamp}` is given by
spec section 3 and the keyword arguments at construction sites. -/
structure ThreadMessage where
  author : String
  text : String
  timestamp : String
deriving Repr, DecidableEq

/-- The adapter's constructor state: `self.token` and `self.default_channel`. -/
structure SlackNotifyAdapter where
  token : String
  default_channel : String
deriving Repr, DecidableEq

/-- A parsed JSON message object as read by `get_thread_replies` (keys
`user`, `text`, `ts`) and by `search` (additionally `username`); a `none`
field is an absent key. -/
structure SlackMessage where
  user : Option String := none
  username : Option String := none
  text : Option String := none
  ts : Option String := none
deriving Repr, DecidableEq

/-- Parsed response of `chat.postMessage` as consumed by `post` and
`post_thread`: keys `ok`, `error`, `ts`, `channel`. -/
structure PostResponse where
  ok : Option Bool := none
  error : Option String := none
  ts : Option String := none
  channel : Option String := none
deriving Repr, DecidableEq

/-- Parsed response of `conversations.replies`: keys `ok` and `messages`. -/
structure RepliesResponse where
  ok : Option Bool := none
  messages : Option (List SlackMessage) := none
deriving Repr, DecidableEq

/-- The inner `messages` object of a `search.messages` response; the field
models the JSON key `matches` (`matches` is a reserved word in Lean). -/
structure MessagesField where
  matchesKey : Option (List SlackMessage) := none
deriving Repr, DecidableEq

/-- Parsed response of `search.messages`: keys `ok` and `messages`. -/
structure SearchResponse where
  ok : Option Bool := none
  messages : Option MessagesField := none
deriving Repr, DecidableEq

/-- Python truthiness of an optional string: `None` and `""` are falsy. -/
def pyTruthy : Option String → Bool
  | none => false
  | some s => !s.isEmpty

/-- Python's `channel or self.default_channel` for `channel : str | None`. -/
def orDefault : Option String → String → String
  | none, d => d
  | some s, d => if s.isEmpty then d else s

/-- Python's list slice `l[:n]` for an `int` bound `n`: a nonnegative bound
takes a prefix, a negative bound drops `|n|` elements from the end
(clamped at the empty list). -/
def pySliceTo (n : Int) (l : List α) : List α :=
  if n < 0 then l.take (l.length - (-n).toNat) else l.take n.toNat

/-- Outcome of `_api_call`'s transport layer (`urllib.request.urlopen` plus
`json.loads`): an `urllib.error.HTTPError` with a status code and reason, any
other exception (stringified), or a parsed response dict. -/
inductive CallOutcome where
  | httpError (code : Nat) (reason : String)
  | requestFailed (msg : String)
  | response (r : PostResponse)
deriving Repr, DecidableEq

/-- Outcome of the `try` block of a read operation: any raised exception
(transport failure, malformed body, non-dict JSON, ...) or a parsed
response. -/
inductive ReadOutcome (ρ : Type) where
  | exc
  | resp (r : ρ)
deriving Repr, DecidableEq

/-- Errors raised on the write path: `RuntimeError(msg)` (raised both by
`_api_call` and by the `Slack API error` branch of `post`/`post_thread`)
and Python's `KeyError(key)` from an unguarded `result[key]` lookup. -/
inductive PostError where
  | runtimeError (msg : String)
  | keyError (key : String)
deriving Repr, DecidableEq

/-- `_api_call` (adapter.py lines 241-247): returns the parsed response, or
raises `RuntimeError` with `HTTP error: {code} {reason}` for an
`HTTPError` and `Request failed: {e}` for any other exception. -/
def apiCallResult : CallOutcome → Except String PostResponse
  | .httpError code reason =>
      .error ("HTTP error: " ++ toString code ++ " " ++ reason)
  | .requestFailed msg => .error ("Request failed: " ++ msg)
  | .response r => .ok r

/-- The outbound JSON payload of `chat.postMessage`; `channel` and `text`
are always present, the remaining keys only when set. -/
structure PostPayload where
  channel : String
  text : String
  username : Option String := none
  icon_emoji : Option String := none
  thread_ts : Option String := none
deriving Repr, DecidableEq

/-- Payload construction of `post` (adapter.py lines 50-60): resolve the
channel with `channel or self.default_channel`, always set `channel` and
`text`, and set `username`/`icon_emoji` only under `if username:` /
`if icon:` (Python truthiness). -/
def postPayload (a : SlackNotifyAdapter) (message : String)
    (channel username icon : Option String) : PostPayload :=
  { channel := orDefault channel a.default_channel
    text := message
    username := if pyTruthy username then username else none
    icon_emoji := if pyTruthy icon then icon else none
    thread_ts := none }

/-- Payload construction of `post_thread` (adapter.py lines 94-100). -/
def postThreadPayload (a : SlackNotifyAdapter) (thread_id message : String)
    (channel : Option String) : PostPayload :=
  { channel := orDefault channel a.default_channel
    text := message
    username := none
    icon_emoji := none
    thread_ts := some thread_id }

/-- Shared response handling of `post`/`post_thread` (adapter.py lines
62-72 and 102-112): propagate `_api_call`'s `RuntimeError`; on a response
whose `ok` flag is not true raise `RuntimeError("Slack API error: " +
result.get("error", "unknown error"))`; otherwise build the `PostResult`
from the unguarded lookups `result["ts"]` and `result["channel"]` (a
missing key raises `KeyError`, `ts` being looked up first). -/
def handlePostResponse (oc : CallOutcome) : Except PostError PostResult :=
  match apiCallResult oc with
  | .error m => .error (.runtimeError m)
  | .ok result =>
    if result.ok = some true then
      match result.ts with
      | none => .error (.keyError "ts")
      | some ts =>
        match result.channel with
        | none => .error (.keyError "channel")
        | some ch => .ok { message_id := ts, channel := ch, timestamp := ts }
    else
      .error (.runtimeError
        ("Slack API error: " ++ result.error.getD "unknown error"))

/-- `SlackNotifyAdapter.post` (adapter.py lines 28-72).  The payload it
sends is `postPayload a message channel username icon`; `oc` is the
transport outcome of that call. -/
def post (a : SlackNotifyAdapter) (message : String)
    (channel username icon : Option String) (oc : CallOutcome) :
    Except PostError PostResult :=
  let _payload := postPayload a message channel username icon
  handlePostResponse oc

/-- `SlackNotifyAdapter.post_thread` (adapter.py lines 74-112).  The payload
it sends is `postThreadPayload a thread_id message channel`. -/
def postThread (a : SlackNotifyAdapter) (thread_id message : String)
    (channel : Option String) (oc : CallOutcome) :
    Except PostError PostResult :=
  let _payload := postThreadPayload a thread_id message channel
  handlePostResponse oc

/-- `SlackNotifyAdapter.get_thread_replies` (adapter.py lines 114-156):
any exception yields `[]`; a response with `ok` not true yields `[]`;
otherwise take `result.get("messages", [])`, drop the first entry when
there is more than one, and map each reply to a `ThreadMessage` with
`msg.get("user", "unknown")`, `msg.get("text", "")`, `msg.get("ts", "")`. -/
def getThreadReplies (a : SlackNotifyAdapter) (channel thread_id : String)
    (oc : ReadOutcome RepliesResponse) : List ThreadMessage :=
  match oc with
  | .exc => []
  | .resp result =>
    if result.ok = some true then
      let messages := result.messages.getD []
      let replies := if messages.length > 1 then messages.drop 1 else []
      replies.map fun msg =>
        { author := msg.user.getD "unknown"
          text := msg.text.getD ""
          timestamp := msg.ts.getD "" }
    else []

/-- A Python `datetime` as far as `search` consumes one (`strftime` on the
date fields; the time fields exist but are unused by `%Y-%m-%d`). -/
structure PyDatetime where
  year : Nat
  month : Nat
  day : Nat
  hour : Nat := 0
  minute : Nat := 0
  second : Nat := 0
deriving Repr, DecidableEq

/-- Two-digit zero padding, as `strftime`'s `%m`/`%d` produce. -/
def pad2 (n : Nat) : String :=
  if n < 10 then "0" ++ toString n else toString n

/-- `since.strftime("%Y-%m-%d")` (adapter.py line 183). -/
def strftimeYMD (d : PyDatetime) : String :=
  toString d.year ++ "-" ++ pad2 d.month ++ "-" ++ pad2 d.day

/-- Query composition of `search` (adapter.py lines 177-184): append
` in:{channel}` under `if channel:` (truthiness) and ` after:{date}` under
`if since:` (a datetime is always truthy). -/
def composeSearchQuery (query : String) (channel : Option String)
    (since : Option PyDatetime) : String :=
  let sq := if pyTruthy channel then query ++ " in:" ++ channel.getD "" else query
  match since with
  | some d => sq ++ " after:" ++ strftimeYMD d
  | none => sq

/-- The `count` request parameter of `search`: `min(limit, 100)`
(adapter.py line 187). -/
def searchRequestCount (limit : Int) : Int := min limit 100

/-- `result.get("messages", {}).get("matches", [])` (adapter.py line 203). -/
def searchMatches (r : SearchResponse) : List SlackMessage :=
  (r.messages.getD {}).matchesKey.getD []

/-- `SlackNotifyAdapter.search` (adapter.py lines 158-214): any exception
yields `[]`; a response with `ok` not true yields `[]`; otherwise slice the
matches with `matches[:limit]` and map each to a `ThreadMessage` with
`msg.get("user", msg.get("username", "unknown"))`, `msg.get("text", "")`,
`msg.get("ts", "")`.  The request it sends carries
`composeSearchQuery query channel since` and `searchRequestCount limit`. -/
def search (a : SlackNotifyAdapter) (query : String)
    (channel : Option String) (since : Option PyDatetime) (limit : Int)
    (oc : ReadOutcome SearchResponse) : List ThreadMessage :=
  match oc with
  | .exc => []
  | .resp result =>
    if result.ok = some true then
      (pySliceTo limit (searchMatches result)).map fun msg =>
        { author := msg.user.getD (msg.username.getD "unknown")
          text := msg.text.getD ""
          timestamp := msg.ts.getD "" }
    else []

/-- `sub` occurs contiguously at the start of `l`. -/
def leadsWith [DecidableEq α] : List α → List α → Bool
  | [], _ => true
  | _ :: _, [] => false
  | a :: as, b :: bs => a = b && leadsWith as bs

/-- `sub` occurs contiguously somewhere in `l`. -/
def hasBlock [DecidableEq α] (sub : List α) : List α → Bool
  | [] => leadsWith sub []
  | b :: bs => leadsWith sub (b :: bs) || hasBlock sub bs

/-- String containment: `sub` occurs contiguously in `s`. -/
def strContains (s sub : String) : Prop :=
  hasBlock sub.data s.data = true

instance (s sub : String) : Decidable (strContains s sub) := by
  unfold strContains; infer_instance

/-! ### Helper lemmas for string containment -/

lemma leadsWith_append [DecidableEq α] (xs rest : List α) :
    leadsWith xs (xs ++ rest) = true := by
  induction xs with
  | nil => rfl
  | cons a as ih => simp [leadsWith, ih]

lemma hasBlock_of_leadsWith [DecidableEq α] {sub l : List α}
    (h : leadsWith sub l = true) : hasBlock sub l = true := by
  cases l with
  | nil => exact h
  | cons b bs => simp [hasBlock, h]

lemma hasBlock_append_left [DecidableEq α] (p : List α) {sub l : List α}
    (h : hasBlock sub l = true) : hasBlock sub (p ++ l) = true := by
  induction p with
  | nil => exact h
  | cons a as ih => simp [hasBlock, ih]

lemma strContains_intro (p sub q : String) : strContains (p ++ sub ++ q) sub := by
  unfold strContains
  have h1 : (p ++ sub ++ q).data = p.data ++ (sub.data ++ q.data) := by
    simp [String.data_append]
  rw [h1]
  exact hasBlock_append_left p.data
    (hasBlock_of_leadsWith (leadsWith_append sub.data q.data))

lemma strContains_of_eq {s sub : String} (p q' : String)
    (h : s = p ++ sub ++ q') : strContains s sub :=
  h ▸ strContains_intro p sub q'

lemma contains_in_clause (q c t : String) :
    strContains ((q ++ " in:" ++ c) ++ t) ("in:" ++ c) := by
  apply strContains_of_eq (q ++ " ") t
  have e : (" in:" : String) = " " ++ "in:" := rfl
  rw [e, ← String.append_assoc q " " "in:", String.append_assoc (q ++ " ") "in:" c]

lemma contains_after_clause (sq ymd : String) :
    strContains (sq ++ " after:" ++ ymd) ("after:" ++ ymd) := by
  apply strContains_of_eq (sq ++ " ") ""
  have e : (" after:" : String) = " " ++ "after:" := rfl
  rw [String.append_empty, e, ← String.append_assoc sq " " "after:",
    String.append_assoc (sq ++ " ") "after:" ymd]

/-! ### Claim theorems -/

/-- C1: whenever the remote response of `post` or `post_thread` parses with a
false `ok` flag, the operation raises a `RuntimeError` (the spec's `ApiError`)
whose message contains the platform's reported error code, falling back to the
literal `unknown error` when the `error` field is absent. -/
theorem post_raises_apiError_on_false_ok (a : SlackNotifyAdapter)
    (m th : String) (ch u i : Option String) (r : PostResponse)
    (h : r.ok = some false) :
    post a m ch u i (.response r)
      = .error (.runtimeError ("Slack API error: " ++ r.error.getD "unknown error")) ∧
    postThread a th m ch (.response r)
      = .error (.runtimeError ("Slack API error: " ++ r.error.getD "unknown error")) ∧
    (∀ e, r.error = some e →
      strContains ("Slack API error: " ++ r.error.getD "unknown error") e) ∧
    (r.error = none →
      strContains ("Slack API error: " ++ r.error.getD "unknown error") "unknown error") := by
  refine ⟨?_, ?_, ?_, ?_⟩
  · simp [post, handlePostResponse, apiCallResult, h]
  · simp [postThread, handlePostResponse, apiCallResult, h]
  · intro e he
    rw [he]
    exact strContains_of_eq "Slack API error: " ""
      (by rw [String.append_empty]; rfl)
  · intro he
    rw [he]
    exact strContains_of_eq "Slack API error: " ""
      (by rw [String.append_empty]; rfl)

theorem post_raises_apiError_on_false_ok_witness :
    post ⟨"xoxb-test", "#herd-feed"⟩ "hello" none none none
        (.response { ok := some false, error := some "invalid_auth" })
      = .error (.runtimeError "Slack API error: invalid_auth") ∧
    strContains "Slack API error: invalid_auth" "invalid_auth" := by
  have h := post_raises_apiError_on_false_ok ⟨"xoxb-test", "#herd-feed"⟩
    "hello" "9.9" none none none
    { ok := some false, error := some "invalid_auth" } rfl
  exact ⟨h.1, h.2.2.1 "invalid_auth" rfl⟩

/-- C3: whenever the remote response of `post` has a true `ok` flag (and the
`ts` and `channel` fields the success path reads are present), the returned
`PostResult` has `message_id` and `timestamp` both equal to the response's
`ts` field, and its `channel` equal to the response's `channel` field — the
requested channel `ch` does not appear in the result. -/
theorem post_success_populates_result (a : SlackNotifyAdapter) (m : String)
    (ch u i : Option String) (r : PostResponse) (ts chResp : String)
    (h1 : r.ok = some true) (h2 : r.ts = some ts) (h3 : r.channel = some chResp) :
    post a m ch u i (.response r)
      = .ok { message_id := ts, channel := chResp, timestamp := ts } := by
  simp [post, handlePostResponse, apiCallResult, h1, h2, h3]

theorem post_success_populates_result_witness :
    post ⟨"xoxb-test", "#herd-feed"⟩ "hi" (some "#req") none none
        (.response { ok := some true, ts := some "1.5", channel := some "C123" })
      = .ok { message_id := "1.5", channel := "C123", timestamp := "1.5" } :=
  post_success_populates_result ⟨"xoxb-test", "#herd-feed"⟩ "hi"
    (some "#req") none none _ "1.5" "C123" rfl rfl rfl

/-- C9: a transport-level failure during `post` or `post_thread` — an
`HTTPError` with a status code and reason, or any other exception before a
response is parsed — is re-raised as a `RuntimeError` (the spec's `ApiError`)
whose message embeds the status code and reason when available (in particular
it contains the status code), and a generic `Request failed` message
otherwise. -/
theorem write_transport_failure_raises (a : SlackNotifyAdapter)
    (m th em reason : String) (ch u i : Option String) (code : Nat) :
    post a m ch u i (.httpError code reason)
      = .error (.runtimeError ("HTTP error: " ++ toString code ++ " " ++ reason)) ∧
    postThread a th m ch (.httpError code reason)
      = .error (.runtimeError ("HTTP error: " ++ toString code ++ " " ++ reason)) ∧
    strContains ("HTTP error: " ++ toString code ++ " " ++ reason) (toString code) ∧
    post a m ch u i (.requestFailed em)
      = .error (.runtimeError ("Request failed: " ++ em)) ∧
    postThread a th m ch (.requestFailed em)
      = .error (.runtimeError ("Request failed: " ++ em)) := by
  refine ⟨rfl, rfl, ?_, rfl, rfl⟩
  rw [String.append_assoc]
  exact strContains_intro "HTTP error: " (toString code) (" " ++ reason)

/-- C10: the success path of `post`/`post_thread` reads `result["ts"]` and
`result["channel"]` without guarding for their absence, so a response with a
true `ok` flag but a missing `ts` or `channel` key raises an unclassified
`KeyError` instead of returning a `PostResult` (and not the classified
`RuntimeError`). -/
theorem success_missing_field_keyError :
    post ⟨"xoxb-test", "#herd-feed"⟩ "hi" none none none
        (.response { ok := some true, channel := some "C1" })
      = .error (.keyError "ts") ∧
    post ⟨"xoxb-test", "#herd-feed"⟩ "hi" none none none
        (.response { ok := some true, ts := some "1.0" })
      = .error (.keyError "channel") ∧
    postThread ⟨"xoxb-test", "#herd-feed"⟩ "9.9" "hi" none
        (.response { ok := some true })
      = .error (.keyError "ts") :=
  ⟨rfl, rfl, rfl⟩

/-- C2: `get_thread_replies` and `search` return `[]` on every remote failure
— any exception raised inside their `try` block (transport error, malformed
response, ...) and every parsed response whose `ok` flag is not true — and,
being total functions into lists, never propagate an exception to the
caller. -/
theorem read_operations_soft_fail (a : SlackNotifyAdapter)
    (ch tid q : String) (c : Option String) (s : Option PyDatetime) (lim : Int)
    (oc1 : ReadOutcome RepliesResponse) (oc2 : ReadOutcome SearchResponse)
    (h1 : ∀ r, oc1 = .resp r → r.ok ≠ some true)
    (h2 : ∀ r, oc2 = .resp r → r.ok ≠ some true) :
    getThreadReplies a ch tid oc1 = [] ∧ search a q c s lim oc2 = [] := by
  constructor
  · cases oc1 with
    | exc => rfl
    | resp r => simp [getThreadReplies, h1 r rfl]
  · cases oc2 with
    | exc => rfl
    | resp r => simp [search, h2 r rfl]

theorem read_operations_soft_fail_witness :
    getThreadReplies ⟨"xoxb-test", "#herd-feed"⟩ "#c" "9.9" .exc = [] ∧
    search ⟨"xoxb-test", "#herd-feed"⟩ "q" none none 50
        (.resp { ok := some false }) = [] :=
  read_operations_soft_fail ⟨"xoxb-test", "#herd-feed"⟩ "#c" "9.9" "q"
    none none 50 .exc (.resp { ok := some false })
    (fun r h => by cases h) (fun r h => by cases h; decide)

/-- C5: a successful `get_thread_replies` response carrying the message list
`msgs` yields exactly `msgs` minus its first entry (the parent), in original
order — hence `N - 1` results for `N` total messages and `[]` for `N = 1` —
each mapped to a `ThreadMessage` whose `text` defaults to `""` and whose
`author` defaults to `"unknown"` when the corresponding field is absent. -/
theorem thread_replies_drop_parent (a : SlackNotifyAdapter) (ch tid : String)
    (r : RepliesResponse) (msgs : List SlackMessage)
    (h1 : r.ok = some true) (h2 : r.messages = some msgs) :
    getThreadReplies a ch tid (.resp r)
      = (msgs.drop 1).map (fun msg =>
          { author := msg.user.getD "unknown"
            text := msg.text.getD ""
            timestamp := msg.ts.getD "" }) ∧
    (getThreadReplies a ch tid (.resp r)).length = msgs.length - 1 := by
  have hmain : getThreadReplies a ch tid (.resp r)
      = (msgs.drop 1).map (fun msg =>
          { author := msg.user.getD "unknown"
            text := msg.text.getD ""
            timestamp := msg.ts.getD "" }) := by
    match msgs, h2 with
    | [], h2 => simp [getThreadReplies, h1, h2]
    | [x], h2 => simp [getThreadReplies, h1, h2]
    | x :: y :: t, h2 =>
      simp only [getThreadReplies, h1, h2, Option.getD_some, if_pos]
      have hlen : (x :: y :: t).length > 1 := by simp
      rw [if_pos hlen]
  refine ⟨hmain, ?_⟩
  rw [hmain]
  simp [List.length_drop]

theorem thread_replies_drop_parent_witness :
    getThreadReplies ⟨"xoxb-test", "#herd-feed"⟩ "#c" "9.9"
        (.resp { ok := some true
                 messages := some
                   [ { user := some "alice", text := some "parent", ts := some "9.9" },
                     { user := some "bob", text := some "re1", ts := some "10.1" },
                     { ts := some "10.2" } ] })
      = [ { author := "bob", text := "re1", timestamp := "10.1" },
          { author := "unknown", text := "", timestamp := "10.2" } ] := by
  have h := thread_replies_drop_parent ⟨"xoxb-test", "#herd-feed"⟩ "#c" "9.9"
    { ok := some true
      messages := some
        [ { user := some "alice", text := some "parent", ts := some "9.9" },
          { user := some "bob", text := some "re1", ts := some "10.1" },
          { ts := some "10.2" } ] } _ rfl rfl
  exact h.1.trans (by decide)

/-- C4 counterexample: the explicit destination `""` is supplied to `post`,
yet the outbound payload does not carry it — Python's `channel or
self.default_channel` treats the empty string as falsy and substitutes the
default, so the claim's `explicit_destination ?? default_destination`
resolution fails at this input. -/
theorem destination_empty_string_cex :
    (postPayload ⟨"xoxb-test", "#herd-feed"⟩ "hi" (some "") none none).channel
        = "#herd-feed" ∧
    ¬ (postPayload ⟨"xoxb-test", "#herd-feed"⟩ "hi" (some "") none none).channel
        = "" := by
  decide

/-- C4 (amended): `post` and `post_thread` resolve the payload destination to
the explicit per-call destination when a non-empty one is supplied, and to
the configured default when it is omitted or empty (Python truthiness
coalescing); `search` appends its `in:` restriction for a non-empty explicit
destination and leaves the query unrestricted otherwise, never substituting
the default. -/
theorem destination_resolution_nonempty (a : SlackNotifyAdapter)
    (m th q c : String) (u i : Option String) (hc : c ≠ "") :
    (postPayload a m (some c) u i).channel = c ∧
    (postPayload a m none u i).channel = a.default_channel ∧
    (postPayload a m (some "") u i).channel = a.default_channel ∧
    (postThreadPayload a th m (some c)).channel = c ∧
    (postThreadPayload a th m none).channel = a.default_channel ∧
    (postThreadPayload a th m (some "")).channel = a.default_channel ∧
    composeSearchQuery q (some c) none = q ++ " in:" ++ c ∧
    composeSearchQuery q none none = q ∧
    composeSearchQuery q (some "") none = q := by
  have hce : c.isEmpty = false := by
    rw [← Bool.not_eq_true, String.isEmpty_iff]
    exact hc
  have hee : ("" : String).isEmpty = true := rfl
  refine ⟨?_, rfl, ?_, ?_, rfl, ?_, ?_, rfl, ?_⟩ <;>
    simp [postPayload, postThreadPayload, composeSearchQuery, orDefault,
      pyTruthy, hce, hee]

theorem destination_resolution_nonempty_witness :
    (postPayload ⟨"xoxb-test", "#herd-feed"⟩ "hi" (some "#general") none none).channel
        = "#general" ∧
    composeSearchQuery "deploy" (some "#general") none = "deploy" ++ " in:" ++ "#general" := by
  have h := destination_resolution_nonempty ⟨"xoxb-test", "#herd-feed"⟩
    "hi" "9.9" "deploy" "#general" none none (by decide)
  exact ⟨h.1, h.2.2.2.2.2.2.1⟩

/-- C7 counterexample: the caller supplies `username=""` and `icon=""`
(present optional arguments), yet both keys are omitted from the payload —
`if username:` / `if icon:` treat the empty string as falsy — so presence
in the payload is not equivalent to the argument being supplied. -/
theorem payload_empty_string_supplied_cex :
    (some "" : Option String).isSome = true ∧
    (postPayload ⟨"xoxb-test", "#herd-feed"⟩ "hi" none (some "") (some "")).username
        = none ∧
    (postPayload ⟨"xoxb-test", "#herd-feed"⟩ "hi" none (some "") (some "")).icon_emoji
        = none := by
  decide

/-- C7 (amended): the `post` payload always carries the resolved channel and
the message text; the `username` and `icon_emoji` keys are present exactly
when the caller supplied a non-empty value, carrying that value verbatim —
a `none` or empty-string argument leaves the key absent (never an empty or
null value). -/
theorem post_payload_optional_keys (a : SlackNotifyAdapter) (m : String)
    (ch : Option String) (s t : String) (hs : s ≠ "") (ht : t ≠ "") :
    (postPayload a m ch (some s) (some t)).text = m ∧
    (postPayload a m ch (some s) (some t)).channel = orDefault ch a.default_channel ∧
    (postPayload a m ch (some s) (some t)).username = some s ∧
    (postPayload a m ch (some s) (some t)).icon_emoji = some t ∧
    (postPayload a m ch none none).username = none ∧
    (postPayload a m ch none none).icon_emoji = none ∧
    (postPayload a m ch (some "") (some "")).username = none ∧
    (postPayload a m ch (some "") (some "")).icon_emoji = none := by
  have hse : s.isEmpty = false := by
    rw [← Bool.not_eq_true, String.isEmpty_iff]; exact hs
  have hte : t.isEmpty = false := by
    rw [← Bool.not_eq_true, String.isEmpty_iff]; exact ht
  have hee : ("" : String).isEmpty = true := rfl
  refine ⟨rfl, rfl, ?_, ?_, rfl, rfl, ?_, ?_⟩ <;>
    simp [postPayload, pyTruthy, hse, hte, hee]

theorem post_payload_optional_keys_witness :
    (postPayload ⟨"xoxb-test", "#herd-feed"⟩ "hi" none (some "TestBot") (some ":robot:")).username
        = some "TestBot" ∧
    (postPayload ⟨"xoxb-test", "#herd-feed"⟩ "hi" none (some "TestBot") (some ":robot:")).icon_emoji
        = some ":robot:" := by
  have h := post_payload_optional_keys ⟨"xoxb-test", "#herd-feed"⟩ "hi" none
    "TestBot" ":robot:" (by decide) (by decide)
  exact ⟨h.2.2.1, h.2.2.2.1⟩

/-- C6 counterexample: with requested limit `-1` and a successful response
carrying two matches, Python's slice `matches[:-1]` drops one trailing match
and returns one result, so the returned sequence contains more than `limit`
results — the claim's bound fails for a negative limit. -/
theorem search_negative_limit_cex :
    (search ⟨"xoxb-test", "#herd-feed"⟩ "q" none none (-1)
        (.resp { ok := some true
                 messages := some { matchesKey := some [ {}, {} ] } })).length = 1 ∧
    ¬ (((search ⟨"xoxb-test", "#herd-feed"⟩ "q" none none (-1)
        (.resp { ok := some true
                 messages := some { matchesKey := some [ {}, {} ] } })).length : Int)
          ≤ -1) := by
  decide

/-- C6 (amended): the result-count parameter sent to the remote always equals
`min limit 100`; for a nonnegative requested limit, a successful `search`
returns the first `limit` matches — the mapped prefix of the response's
matches in their original order — and hence never more than `limit`
results.  (For a negative limit, Python slice semantics drop trailing
matches instead, and the bound fails.) -/
theorem search_limit_truncation (a : SlackNotifyAdapter) (q : String)
    (c : Option String) (s : Option PyDatetime) (lim : Int) (r : SearchResponse)
    (h0 : 0 ≤ lim) (hok : r.ok = some true) :
    searchRequestCount lim = min lim 100 ∧
    search a q c s lim (.resp r)
      = ((searchMatches r).take lim.toNat).map (fun msg =>
          { author := msg.user.getD (msg.username.getD "unknown")
            text := msg.text.getD ""
            timestamp := msg.ts.getD "" }) ∧
    ((search a q c s lim (.resp r)).length : Int) ≤ lim := by
  have hslice : pySliceTo lim (searchMatches r) = (searchMatches r).take lim.toNat := by
    unfold pySliceTo
    rw [if_neg (by omega)]
  have hmain : search a q c s lim (.resp r)
      = ((searchMatches r).take lim.toNat).map (fun msg =>
          { author := msg.user.getD (msg.username.getD "unknown")
            text := msg.text.getD ""
            timestamp := msg.ts.getD "" }) := by
    simp [search, hok, hslice]
  refine ⟨rfl, hmain, ?_⟩
  rw [hmain]
  have hlen : (((searchMatches r).take lim.toNat).length : Int) ≤ (lim.toNat : Int) := by
    have hn : ((searchMatches r).take lim.toNat).length ≤ lim.toNat := by
      rw [List.length_take]
      exact Nat.min_le_left _ _
    exact_mod_cast hn
  rw [List.length_map]
  calc (((searchMatches r).take lim.toNat).length : Int)
      ≤ (lim.toNat : Int) := hlen
    _ = lim := Int.toNat_of_nonneg h0

theorem search_limit_truncation_witness :
    search ⟨"xoxb-test", "#herd-feed"⟩ "deploy" none none 2
        (.resp { ok := some true
                 messages := some { matchesKey := some [
                       { user := some "alice", text := some "a", ts := some "1" },
                       { username := some "bobby", text := some "b", ts := some "2" },
                       { text := some "c", ts := some "3" } ] } })
      = [ { author := "alice", text := "a", timestamp := "1" },
          { author := "bobby", text := "b", timestamp := "2" } ] := by
  have h := search_limit_truncation ⟨"xoxb-test", "#herd-feed"⟩ "deploy"
    none none 2
    { ok := some true
      messages := some { matchesKey := some [
            { user := some "alice", text := some "a", ts := some "1" },
            { username := some "bobby", text := some "b", ts := some "2" },
            { text := some "c", ts := some "3" } ] } }
    (by decide) rfl
  exact h.2.1.trans (by decide)

/-- C8 counterexample: a destination restriction is requested with the
(empty) destination `""`, yet the composed query is the bare base query and
contains no `in:` clause — `if channel:` treats the empty string as falsy —
so the claim's "exactly when a destination restriction is requested" fails
at this input. -/
theorem search_query_empty_destination_cex :
    composeSearchQuery "hello" (some "") none = "hello" ∧
    ¬ strContains (composeSearchQuery "hello" (some "") none) ("in:" ++ "") := by
  decide

/-- C8 (amended): when a non-empty destination `c` is requested, the composed
query contains the literal clause `in:` followed by `c` (whatever the
`since` argument); when a `since` timestamp is supplied, the composed query
contains the literal clause `after:` followed by `strftime("%Y-%m-%d")` of
that timestamp, a calendar date that ignores the time-of-day fields. -/
theorem search_query_filter_clauses (q c : String) (hc : c ≠ "")
    (ch : Option String) (d : PyDatetime) (s : Option PyDatetime) :
    strContains (composeSearchQuery q (some c) s) ("in:" ++ c) ∧
    strContains (composeSearchQuery q ch (some d)) ("after:" ++ strftimeYMD d) ∧
    strftimeYMD d = strftimeYMD { year := d.year, month := d.month, day := d.day } := by
  have hce : c.isEmpty = false := by
    rw [← Bool.not_eq_true, String.isEmpty_iff]
    exact hc
  refine ⟨?_, ?_, rfl⟩
  · cases s with
    | none =>
      have e : composeSearchQuery q (some c) none = (q ++ " in:" ++ c) ++ "" := by
        simp [composeSearchQuery, pyTruthy, hce]
      rw [e]
      exact contains_in_clause q c ""
    | some d' =>
      have e : composeSearchQuery q (some c) (some d')
          = (q ++ " in:" ++ c) ++ (" after:" ++ strftimeYMD d') := by
        simp [composeSearchQuery, pyTruthy, hce, String.append_assoc]
      rw [e]
      exact contains_in_clause q c (" after:" ++ strftimeYMD d')
  · have e : composeSearchQuery q ch (some d)
        = (if pyTruthy ch then q ++ " in:" ++ ch.getD "" else q)
            ++ " after:" ++ strftimeYMD d := rfl
    rw [e]
    exact contains_after_clause _ (strftimeYMD d)

theorem search_query_filter_clauses_witness :
    strContains (composeSearchQuery "deploy" (some "#x") none) ("in:" ++ "#x") ∧
    strContains (composeSearchQuery "deploy" none (some ⟨2024, 3, 7, 12, 30, 0⟩))
      ("after:" ++ strftimeYMD ⟨2024, 3, 7, 12, 30, 0⟩) ∧
    strftimeYMD ⟨2024, 3, 7, 12, 30, 0⟩ = strftimeYMD ⟨2024, 3, 7, 0, 0, 0⟩ := by
  have h := search_query_filter_clauses "deploy" "#x" (by decide) none
    ⟨2024, 3, 7, 12, 30, 0⟩ none
  exact ⟨h.1, h.2.1, h.2.2⟩
